import Mathlib

/-!
Shallow embedding of the ha-brunata integration (custom_components/brunata_online
and libs/brunata), for checking its specification.

Conventions used throughout:
* Python `datetime` values are POSIX timestamps (`Int`); where timezone
  awareness matters a `PyDatetime` record carries an `aware` flag.
* Python `float` values are `Rat` (no statement here depends on rounding).
* Fallible Python code (code that can raise) is embedded as `Except PyExn`
  (or `Except` of a more informative error payload); the exception kind
  mirrors the Python exception class that would be raised.
-/

namespace Brunata

/-- Python dict lookup `d.get(k)` over a dict given as key-value pairs
(first binding wins; the dicts built by this code bind each key once). -/
def dget [DecidableEq κ] : List (κ × β) → κ → Option β
  | [], _ => none
  | (a, b) :: rest, k => if k = a then some b else dget rest k

instance [DecidableEq ε] [DecidableEq α] : DecidableEq (Except ε α) := fun a b =>
  match a, b with
  | .error e, .error f =>
    if h : e = f then .isTrue (by rw [h]) else .isFalse (fun he => h (Except.error.inj he))
  | .ok x, .ok y =>
    if h : x = y then .isTrue (by rw [h]) else .isFalse (fun he => h (Except.ok.inj he))
  | .error _, .ok _ => .isFalse (fun he => Except.noConfusion he)
  | .ok _, .error _ => .isFalse (fun he => Except.noConfusion he)

/-- The Python exception classes that the embedded code can raise. -/
inductive PyExn where
  | attributeError
  | keyError
  | indexError
  | assertionError
  | typeError
  | valueError
  | validationError
  deriving Repr, DecidableEq

/-! ## Token store (api2.py `self._tokens`)

`self._tokens` is a Python dict whose keys, over all writes in the source,
are exactly the fields below (the token endpoint's payload keys plus the
locally computed `refresh_token_expires_on`).  Each field is `none` when the
key is absent from the dict. -/

structure Tokens where
  access_token : Option String := none
  token_type : Option String := none
  refresh_token : Option String := none
  expires_on : Option Int := none
  expires_in : Option Int := none
  refresh_token_expires_on : Option Int := none
  refresh_token_expires_in : Option Int := none
  deriving Repr, DecidableEq

def Tokens.empty : Tokens := {}

/-- Python truthiness of the dict (`not self._tokens`): empty iff no key is
present. -/
def Tokens.isEmpty (t : Tokens) : Bool :=
  t.access_token.isNone && t.token_type.isNone && t.refresh_token.isNone &&
  t.expires_on.isNone && t.expires_in.isNone &&
  t.refresh_token_expires_on.isNone && t.refresh_token_expires_in.isNone

/-- `u.orD t`: the value of a key after `dict.update` when `u` is the updating
dict's entry and `t` the stored one (the updating dict's key wins when
present). -/
def orD (u t : Option α) : Option α :=
  match u with
  | some v => some v
  | none => t

/-- Python `self._tokens.update(tokens)` (`dict.update`) over the fixed key
universe of the token store. -/
def Tokens.update (t u : Tokens) : Tokens where
  access_token := orD u.access_token t.access_token
  token_type := orD u.token_type t.token_type
  refresh_token := orD u.refresh_token t.refresh_token
  expires_on := orD u.expires_on t.expires_on
  expires_in := orD u.expires_in t.expires_in
  refresh_token_expires_on := orD u.refresh_token_expires_on t.refresh_token_expires_on
  refresh_token_expires_in := orD u.refresh_token_expires_in t.refresh_token_expires_in

/-- `BrunataApi._is_token_valid` (api2.py lines 44-56).  `now` is
`datetime.now()` at the call, as a timestamp.  The Python `match` statement
only has arms for the strings "access_token" and "refresh"; any other
argument falls through to `return True`.  `datetime.fromtimestamp(None)`
(store non-empty but the timestamp key absent) raises `TypeError`. -/
def is_token_valid (tokens : Tokens) (token : String) (now : Int) : Except PyExn Bool :=
  if tokens.isEmpty then .ok false
  else if token == "access_token" then
    match tokens.expires_on with
    | none => .error .typeError
    | some ts => if ts < now then .ok false else .ok true
  else if token == "refresh" then
    match tokens.refresh_token_expires_on with
    | none => .error .typeError
    | some ts => if ts < now then .ok false else .ok true
  else .ok true

/-- Which token-obtaining action `_get_tokens` performs. -/
inductive TokenAction where
  | b2cFlow
  | refreshRequest
  | noRequest
  deriving Repr, DecidableEq

/-- The request decision of `BrunataApi._get_tokens` (api2.py lines 230-234)
combined with `_renew_tokens` (lines 58-79): `_get_tokens` runs the full B2C
flow when `_is_token_valid("refresh_token")` is false, otherwise calls
`_renew_tokens`, which issues no request when `_is_token_valid("access_token")`
holds and otherwise posts a `grant_type=refresh_token` request. -/
def getTokensAction (tokens : Tokens) (now : Int) : Except PyExn TokenAction := do
  let refreshValid ← is_token_valid tokens "refresh_token" now
  if !refreshValid then
    return .b2cFlow
  else
    let accessValid ← is_token_valid tokens "access_token" now
    if accessValid then return .noRequest else return .refreshRequest

/-- Python truthiness of `tokens.get("access_token")`. -/
def optStrTruthy : Option String → Bool
  | none => false
  | some s => !(s == "")

/-- The merge step of `BrunataApi._get_tokens` (api2.py lines 236-255): given
the stored `self._tokens` and the `tokens` payload returned by the chosen
flow, the new value of `self._tokens`.  When the payload's access token is
truthy and its `refresh_token` differs from the stored one, the payload's
`refresh_token_expires_on` is set to `now + refresh_token_expires_in` before
`dict.update`; `int + None` raises `TypeError`.  When the access token is
missing, the store is cleared. -/
def getTokensMerge (stored payload : Tokens) (now : Int) : Except PyExn Tokens :=
  if optStrTruthy payload.access_token then
    if payload.refresh_token != stored.refresh_token then
      match payload.refresh_token_expires_in with
      | none => .error .typeError
      | some ttl =>
          .ok (stored.update { payload with refresh_token_expires_on := some (now + ttl) })
    else .ok (stored.update payload)
  else .ok Tokens.empty

/-! ## DTO models (api/brunata_api/models.py) -/

/-- A Python attribute value appearing on a consumption-value DTO. -/
inductive AttrVal where
  | dt (t : Int)
  | num (q : Option Rat)
  deriving Repr, DecidableEq

/-- `ConsumptionValueDto` (api/brunata_api/models.py lines 64-67): its pydantic
fields are exactly `fromDate`, `toDate`, `consumption`.  The attribute
dictionary is kept explicit because `MeterData.update_from_reading`
(models.py) accesses attributes of these objects by name. -/
abbrev ConsumptionValueDto := List (String × AttrVal)

def ConsumptionValueDto.mk (fromDate toDate : Int) (consumption : Option Rat) :
    ConsumptionValueDto :=
  [("fromDate", .dt fromDate), ("toDate", .dt toDate), ("consumption", .num consumption)]

/-- Python attribute access `v.<name>`: `AttributeError` when the object has
no such attribute. -/
def ConsumptionValueDto.attr (v : ConsumptionValueDto) (name : String) :
    Except PyExn AttrVal :=
  match dget v name with
  | some a => .ok a
  | none => .error .attributeError

/-- The catalog `Meter` built by `MeterReader.configure_metadata`
(api/brunata_api/meter_reader.py lines 10-21). -/
structure Meter where
  meter_id : Int
  meter_number : String
  unit : String
  scale : Option Rat
  placement : Option String
  meter_type : String
  mounting_date : Option Int
  dismount_date : Option Int
  value_category : String
  allocation_unit_code : String
  meter_type_code : Nat
  deriving Repr, DecidableEq

/-- `ConsumptionReading` (api/brunata_api/meter_reader.py lines 23-25). -/
structure ConsumptionReading where
  Meter : Meter
  Values : List ConsumptionValueDto
  deriving DecidableEq

/-! ## Coordinator data model (models.py) -/

/-- `MeterData` (models.py lines 9-26): the time series of one meter.  The
Python dict `values` is modelled by its key-to-value mapping (keys and values
are whatever the merge loop stores, hence `AttrVal`). -/
structure MeterData where
  meter_id : String
  values : AttrVal → Option AttrVal

/-- `MeterData.update_from_reading` (models.py lines 15-19): for each `v` in
`reading.Values` run `self.values[v.starttime] = v.value`.  Both attribute
reads go through `ConsumptionValueDto.attr`; `ConsumptionValueDto` declares
no `starttime` or `value` field. -/
def MeterData.update_from_reading (m : MeterData) (r : ConsumptionReading) :
    Except PyExn MeterData :=
  r.Values.foldlM (fun md v => do
    let key ← v.attr "starttime"
    let value ← v.attr "value"
    pure { md with values := fun k => if k = key then some value else md.values k }) m

/-- `MeterDataSet` (models.py lines 29-50): meter id to `MeterData`. -/
structure MeterDataSet where
  meters : String → Option MeterData

/-- `MeterDataSet.update_from_api_result` (models.py lines 34-42). -/
def MeterDataSet.update_from_api_result (s : MeterDataSet)
    (result : List ConsumptionReading) : Except PyExn MeterDataSet :=
  result.foldlM (fun s reading => do
    let meter_id := toString reading.Meter.meter_id
    let meter := match s.meters meter_id with
      | some m => m
      | none => { meter_id := meter_id, values := fun _ => none : MeterData }
    let meter' ← meter.update_from_reading reading
    pure { meters := fun k => if k = meter_id then some meter' else s.meters k }) s

/-! ## Result wrapper (api/Result.py) -/

/-- `Result` (api/Result.py): `self.value` is either a `T` or an exception
(`is_error` tests `isinstance(value, Exception)`).  Exceptions are modelled
as `String` (their message). -/
structure Result (T : Type) where
  value : Except String T

def Result.is_error (r : Result T) : Bool :=
  match r.value with
  | .error _ => true
  | .ok _ => false

/-- `Result.map` (api/Result.py lines 11-17).  The argument `f` models a
Python callable that either returns (`Except.ok`) or raises (`Except.error`).
`map` returns `self` when `is_error`, otherwise wraps `f(self.value)`,
wrapping the raised exception instead if `f` raises.  `map` is total: it
never raises. -/
def Result.map (r : Result T) (f : T → Except String U) : Result U :=
  match r.value with
  | .error e => ⟨.error e⟩
  | .ok v =>
    match f v with
    | .ok u => ⟨.ok u⟩
    | .error e => ⟨.error e⟩

/-! ## Statistics sensor (sensor.py) -/

/-- A Python `datetime`: timestamp plus timezone-awareness flag. -/
structure PyDatetime where
  ts : Int
  aware : Bool
  deriving Repr, DecidableEq

/-- `datetime.fromtimestamp(ts, UTC)`: a timezone-aware datetime. -/
def fromtimestampUTC (ts : Int) : PyDatetime := ⟨ts, true⟩

/-- `pytz.utc.localize(d)`: raises `ValueError` when `d` is already aware. -/
def pytzUtcLocalize (d : PyDatetime) : Except PyExn PyDatetime :=
  if d.aware then .error .valueError else .ok { d with aware := true }

/-- The last-known statistics row (`StatisticsRow` with the fields the sensor
reads: `start` timestamp and cumulative `sum`). -/
structure StatRow where
  start : Int
  sum : Rat
  deriving Repr, DecidableEq

/-- An emitted `StatisticData` increment record. -/
structure StatisticData where
  start : Int
  sum : Rat
  deriving Repr, DecidableEq

/-- Stable insertion into an ascending list (helper for `pySorted`). -/
def insSorted (x : Int) : List Int → List Int
  | [] => [x]
  | y :: rest => if x ≤ y then x :: y :: rest else y :: insSorted x rest

/-- Python `sorted` on a list of datetimes (stable, ascending), as an
insertion sort. -/
def pySorted : List Int → List Int
  | [] => []
  | x :: rest => insSorted x (pySorted rest)

/-- `StatisticsSensor._insert_statistics` (sensor.py lines 90-105).
`new_data` is the `dict[datetime, float]`, given as its key-value pairs.
`sorted(new_data)` iterates the dict, i.e. sorts its keys; the loop header
`for (time, value) in sorted_data` then unpacks each element, and unpacking
a key (a datetime, not a pair) raises `TypeError` at the first iteration.
With no iteration the statistics list stays empty and nothing is emitted. -/
def insert_statistics (new_data : List (Int × Rat)) (last_stat : Option StatRow) :
    Except PyExn (List StatisticData) :=
  let _total : Rat :=
    match last_stat with
    | some st => st.sum
    | none => 0
  let sorted_data := pySorted (new_data.map Prod.fst)
  match sorted_data with
  | [] => .ok []
  | _ :: _ => .error .typeError

/-- `StatisticsSensor._update_data` (sensor.py lines 69-77) followed by
`_insert_statistics`.  `meter` is `data.get_meter(self.entity_id)`, its time
series given as the dict's key-value pairs.  When `last_stat` is `None`,
`last_stat["start"]` raises `TypeError`; otherwise
`pytz.utc.localize(datetime.fromtimestamp(last_stat["start"], UTC))` is
applied to an already-aware datetime.  The filter keeps samples with
timestamp strictly greater than the cutoff. -/
def update_data (last_stat : Option StatRow) (meter : Option (List (Int × Rat))) :
    Except PyExn (List StatisticData) :=
  match last_stat with
  | none => .error .typeError
  | some st => do
    let data_cutoff ← pytzUtcLocalize (fromtimestampUTC st.start)
    match meter with
    | none => .ok []
    | some values =>
      let new_data := values.filter (fun kv => decide (data_cutoff.ts < kv.1))
      insert_statistics new_data last_stat

/-! ## B2C authenticator (api2.py `_b2c_auth`) -/

/-- `REDIRECT` (api/const.py). -/
def REDIRECT : String := "https://online.brunata.com/auth-response"

/-- The characters before the first occurrence of `sep` (the whole list when
`sep` does not occur). -/
def beforeFirst (sep : Char) : List Char → List Char
  | [] => []
  | c :: rest => if c = sep then [] else c :: beforeFirst sep rest

/-- The characters after the first occurrence of `sep`, `none` when `sep`
does not occur. -/
def afterFirst (sep : Char) : List Char → Option (List Char)
  | [] => none
  | c :: rest => if c = sep then some rest else afterFirst sep rest

/-- Splitting on every occurrence of `sep` (Python `str.split(sep)`). -/
def splitOnChar (sep : Char) : List Char → List (List Char)
  | [] => [[]]
  | c :: rest =>
    match splitOnChar sep rest with
    | [] => [[c]]
    | g :: gs => if c = sep then [] :: g :: gs else (c :: g) :: gs

/-- Whether `s` starts with `pre`. -/
def listStartsWith : List Char → List Char → Bool
  | _, [] => true
  | [], _ :: _ => false
  | c :: cs, p :: ps => c = p && listStartsWith cs ps

/-- Python `str.startswith` (`redirect.startswith(REDIRECT)`). -/
def strStartsWith (s pre : String) : Bool :=
  listStartsWith s.toList pre.toList

/-- `urllib.parse.urlparse(url).query`: the part after the first `?`, with
any fragment (after `#`) removed. -/
def urlQuery (url : String) : List Char :=
  match afterFirst '?' (beforeFirst '#' url.toList) with
  | some q => q
  | none => []

/-- One `k=v` entry of a query string, as `parse_qs` reads it: entries
without `=` and entries with an empty value are dropped (default
`keep_blank_values=False`). -/
def qsEntry (key : List Char) (kv : List Char) : Option (List Char) :=
  match afterFirst '=' kv with
  | none => none
  | some v => if beforeFirst '=' kv = key && v ≠ [] then some v else none

/-- `urllib.parse.parse_qs(query)[key][0]` as an `Option`: the first `key=v`
entry of the `&`-separated query, `none` when there is none (the Python
code's `KeyError`).  Percent-decoding is not modelled (no claim depends on
it). -/
def parse_qs_first (query : List Char) (key : String) : Option (List Char) :=
  ((splitOnChar '&' query).filterMap (qsEntry key.toList)).head?

/-- The responses `_b2c_auth` observes from the identity provider, one field
per protocol step datum the code inspects. -/
structure B2CEnv where
  /-- the `x-ms-cpim-csrf` cookie of the authorize response, if set -/
  csrf_cookie : Option String
  /-- whether the authorize body contains a `var SETTINGS = {...};` block -/
  has_settings : Bool
  /-- the `transId` value inside that block, if any -/
  trans_id : Option String
  /-- status of the `/SelfAsserted` response -/
  selfasserted_status : Nat
  /-- the `Location` header of the `/confirmed` response, if present -/
  location : Option String
  /-- the parsed body of the final token response -/
  token_payload : Tokens
  deriving Repr, DecidableEq

/-- `BrunataApi._b2c_auth` (api2.py lines 89-152), abstracted over the
provider's responses.  Step by step:
* `req_code.cookies.get("x-ms-cpim-csrf").value` — `cookies.get` of an absent
  cookie is `None`, so `.value` raises `AttributeError` (the surrounding
  `except KeyError` does not match it);
* no `SETTINGS` block: `return {}`;
* a `SETTINGS` block without a `transId` entry: the comprehension indexing
  `[...][0]` raises `IndexError` (uncaught);
* `assert req_auth.status == 200` raises `AssertionError`;
* `req_auth.headers["Location"]` raises `KeyError` (uncaught) when absent;
* `assert redirect.startswith(REDIRECT)` raises `AssertionError`;
* a missing `code` query parameter is caught (`except KeyError`): `return {}`;
* otherwise the token endpoint's payload is returned. -/
def b2c_auth (env : B2CEnv) : Except PyExn Tokens :=
  match env.csrf_cookie with
  | none => .error .attributeError
  | some _ =>
    if env.has_settings then
      match env.trans_id with
      | none => .error .indexError
      | some _ =>
        if env.selfasserted_status = 200 then
          match env.location with
          | none => .error .keyError
          | some redirect =>
            if strStartsWith redirect REDIRECT then
              match parse_qs_first (urlQuery redirect) "code" with
              | none => .ok Tokens.empty
              | some _ => .ok env.token_payload
            else .error .assertionError
        else .error .assertionError
    else .ok Tokens.empty

/-! ## Meter reader (api/brunata_api/meter_reader.py) -/

/-- `MeterDto` (api/brunata_api/models.py lines 35-50). -/
structure MeterDto where
  meterId : Int
  placement : Option String
  meterNo : String
  meterType : Nat
  scale : Option Rat
  unitfactor : Option String
  mountingDate : Int
  dismountedDate : Option Int
  transmitting : Bool
  allocationUnit : String
  superAllocationUnit : Option Int
  unit : Nat
  meterSequenceNo : Int
  numerator : Option String
  denominator : Option String
  deriving Repr, DecidableEq

/-- `Reading` (api/brunata_api/models.py lines 52-55). -/
structure ReadingDto where
  readingId : Option Int
  readingDate : Option Int
  value : Option Rat
  deriving Repr, DecidableEq

/-- `MeterConfiguration` (api/brunata_api/models.py lines 57-59); a
`MeterResult` is a list of these. -/
structure MeterConfiguration where
  meter : MeterDto
  reading : ReadingDto
  deriving Repr, DecidableEq

/-- `MappersConfiguration` (api/brunata_api/models.py lines 17-20). -/
structure MappersConfiguration where
  meterType : List (Option String)
  measurementUnit : List (Option String)
  allocationUnitMap : List (String × String)
  deriving Repr, DecidableEq

/-- Python list indexing `xs[i]` (`IndexError` out of range; the source
indices are non-negative ints). -/
def pyListIndex (xs : List (Option String)) (i : Nat) : Except PyExn (Option String) :=
  match xs.get? i with
  | some v => .ok v
  | none => .error .indexError

/-- Python dict indexing `m[k]` (`KeyError` when absent). -/
def pyDictIndex (m : List (String × String)) (k : String) : Except PyExn String :=
  match dget m k with
  | some v => .ok v
  | none => .error .keyError

/-- pydantic validation of a `str`-typed field against an `Optional[str]`
mapper entry: `None` is rejected. -/
def requireStr : Option String → Except PyExn String
  | some s => .ok s
  | none => .error .validationError

/-- The body of `MeterReader.configure_metadata`'s loop for one row whose
`superAllocationUnit` is present (meter_reader.py lines 41-56): resolve
`unit`, `meter_type` and `value_category` through the mapping tables and
construct the catalog `Meter`. -/
def resolve_row (cfg : MappersConfiguration) (m : MeterDto) : Except PyExn Meter := do
  let unitOpt ← pyListIndex cfg.measurementUnit m.unit
  let meterTypeOpt ← pyListIndex cfg.meterType m.meterType
  let value_category ← pyDictIndex cfg.allocationUnitMap m.allocationUnit
  let unit ← requireStr unitOpt
  let meter_type ← requireStr meterTypeOpt
  pure
    { meter_id := m.meterId
      meter_number := m.meterNo
      unit := unit
      scale := m.scale
      placement := m.placement
      meter_type := meter_type
      mounting_date := some m.mountingDate
      dismount_date := m.dismountedDate
      value_category := value_category
      allocation_unit_code := m.allocationUnit
      meter_type_code := m.meterType }

/-- Python dict assignment `d[k] = v`: overwrite in place when the key is
present (keeping its position), append at the end otherwise. -/
def dinsert : List (Int × Meter) → Int → Meter → List (Int × Meter)
  | [], k, v => [(k, v)]
  | (a, b) :: rest, k, v =>
    if a = k then (k, v) :: rest else (a, b) :: dinsert rest k v

/-- `MeterReader.configure_metadata` (meter_reader.py lines 34-56) as its
for-loop over the rows, threading the `self.meters` dict `state`: rows with
`superAllocationUnit is None` are skipped (`continue`); every other row
stores its resolved `Meter` under `self.meters[meter.meter.meterId]`. -/
def configure_metadata (cfg : MappersConfiguration) :
    List MeterConfiguration → List (Int × Meter) → Except PyExn (List (Int × Meter))
  | [], state => .ok state
  | mc :: rest, state =>
    match mc.meter.superAllocationUnit with
    | none => configure_metadata cfg rest state
    | some _ => do
      let m ← resolve_row cfg mc.meter
      configure_metadata cfg rest (dinsert state mc.meter.meterId m)

/-- `ConsumptionLine` (api/brunata_api/models.py lines 69-71). -/
structure ConsumptionLine where
  meter : MeterDto
  consumptionValues : List ConsumptionValueDto
  deriving DecidableEq

/-- `ConsumptionResult` (api/brunata_api/models.py lines 73-77). -/
structure ConsumptionResult where
  startDate : Int
  endDate : Int
  interval : String
  consumptionLines : List ConsumptionLine
  deriving DecidableEq

/-- The list comprehension of `MeterReader.enrich_consumption_data`
(meter_reader.py lines 60-66), evaluated left to right:
`self.meters[line.meter.meterId]` raises `KeyError(meterId)` at the first
line whose meter id is not in the catalog; the error payload is the missing
meter id. -/
def enrich_lines (catalog : List (Int × Meter)) :
    List ConsumptionLine → Except Int (List ConsumptionReading)
  | [] => .ok []
  | line :: rest =>
    match dget catalog line.meter.meterId with
    | none => .error line.meter.meterId
    | some m =>
      match enrich_lines catalog rest with
      | .ok rs => .ok ({ Meter := m, Values := line.consumptionValues } :: rs)
      | .error e => .error e

/-- `MeterReader.enrich_consumption_data` (meter_reader.py lines 59-68). -/
def enrich_consumption_data (catalog : List (Int × Meter)) (cd : ConsumptionResult) :
    Except Int (List ConsumptionReading) :=
  enrich_lines catalog cd.consumptionLines

/-! ## Concrete inputs

Fixed values used to evaluate the embedded code at specific inputs. -/

/-- A catalog meter. -/
def meterA : Meter :=
  { meter_id := 1
    meter_number := "100"
    unit := "kWh"
    scale := none
    placement := some "kitchen"
    meter_type := "Heat meter"
    mounting_date := some 0
    dismount_date := none
    value_category := "Heating"
    allocation_unit_code := "A1"
    meter_type_code := 3 }

/-- A non-empty token store whose refresh token expired at t = 10. -/
def tokensExpiredRefresh : Tokens :=
  { access_token := some "at"
    token_type := some "Bearer"
    refresh_token := some "rt"
    expires_on := some 50
    expires_in := some 3600
    refresh_token_expires_on := some 10
    refresh_token_expires_in := some 86400 }

/-- A non-empty token store whose access token expires at t = 100. -/
def tokensAtBoundary : Tokens :=
  { Tokens.empty with access_token := some "at", expires_on := some 100 }

/-- A stored token set with refresh token "R1" expiring at t = 500. -/
def storedTokens : Tokens :=
  { access_token := some "oldA"
    token_type := some "Bearer"
    refresh_token := some "R1"
    expires_on := some 50
    expires_in := some 3600
    refresh_token_expires_on := some 500
    refresh_token_expires_in := some 100 }

/-- A token payload returning the same refresh token "R1". -/
def payloadSameRefresh : Tokens :=
  { access_token := some "newA"
    token_type := some "Bearer"
    refresh_token := some "R1"
    expires_in := some 3600
    refresh_token_expires_in := some 200 }

/-- A token payload returning a rotated refresh token "R2". -/
def payloadNewRefresh : Tokens :=
  { payloadSameRefresh with refresh_token := some "R2" }

/-- A B2C exchange in which the `/confirmed` response has no `Location`
header (every earlier step succeeded). -/
def b2cEnvNoLocation : B2CEnv :=
  { csrf_cookie := some "csrf"
    has_settings := true
    trans_id := some "tx"
    selfasserted_status := 200
    location := none
    token_payload := Tokens.empty }

/-- A B2C exchange in which the authorize response set no CSRF cookie. -/
def b2cEnvNoCsrf : B2CEnv :=
  { b2cEnvNoLocation with csrf_cookie := none }

/-- A B2C exchange whose final redirect carries no `code` parameter. -/
def b2cEnvNoCode : B2CEnv :=
  { b2cEnvNoLocation with
      location := some "https://online.brunata.com/auth-response?state=xyz" }

/-- Mapping tables resolving unit/type code 0 and allocation unit "A1". -/
def mappersD : MappersConfiguration :=
  { meterType := [some "Heat cost allocator"]
    measurementUnit := [some "units"]
    allocationUnitMap := [("A1", "Heating")] }

/-- Scenario D's real meter row: `superAllocationUnit` present. -/
def rowRealD : MeterConfiguration :=
  { meter :=
      { meterId := 10
        placement := some "kitchen"
        meterNo := "M-7"
        meterType := 0
        scale := none
        unitfactor := none
        mountingDate := 0
        dismountedDate := none
        transmitting := true
        allocationUnit := "A1"
        superAllocationUnit := some 1
        unit := 0
        meterSequenceNo := 1
        numerator := none
        denominator := none }
    reading := { readingId := none, readingDate := none, value := none } }

/-- Scenario D's shadow row: same `meterNo`, null `superAllocationUnit`. -/
def rowShadowD : MeterConfiguration :=
  { rowRealD with
      meter := { rowRealD.meter with meterId := 11, superAllocationUnit := none } }

/-- A consumption line for the meter id `mid`. -/
def lineFor (mid : Int) : ConsumptionLine :=
  { meter := { rowRealD.meter with meterId := mid }
    consumptionValues := [ConsumptionValueDto.mk 0 3600 (some 5)] }

/-- A catalog containing meter id 10 only. -/
def catalogD : List (Int × Meter) := [(10, meterA)]

/-- A fetch whose single line's meter id 10 is in `catalogD`. -/
def cdKnown : ConsumptionResult :=
  { startDate := 0, endDate := 86400, interval := "D", consumptionLines := [lineFor 10] }

/-- A fetch with a line for meter id 99, absent from `catalogD`. -/
def cdStale : ConsumptionResult :=
  { cdKnown with consumptionLines := [lineFor 10, lineFor 99] }

/-! ## Helper lemmas -/

theorem dget_nil [DecidableEq κ] (k : κ) : dget ([] : List (κ × β)) k = none := rfl

theorem dget_cons [DecidableEq κ] (a : κ) (b : β) (rest : List (κ × β)) (k : κ) :
    dget ((a, b) :: rest) k = if k = a then some b else dget rest k := rfl

theorem dget_isSome_iff_mem_keys [DecidableEq κ] (d : List (κ × β)) (k : κ) :
    (dget d k).isSome ↔ k ∈ d.map Prod.fst := by
  induction d with
  | nil => simp [dget]
  | cons p rest ih =>
    obtain ⟨a, b⟩ := p
    by_cases h : k = a <;> simp [dget, h, ih]

theorem dget_dinsert (d : List (Int × Meter)) (k : Int) (v : Meter) (k' : Int) :
    dget (dinsert d k v) k' = if k' = k then some v else dget d k' := by
  induction d with
  | nil => simp [dinsert, dget]
  | cons p rest ih =>
    obtain ⟨a, b⟩ := p
    by_cases ha : a = k
    · subst ha
      by_cases hk : k' = a <;> simp [dinsert, dget, hk]
    · by_cases hk : k' = k
      · subst hk
        have hb : ¬ k' = a := fun h => ha (h ▸ rfl)
        simp [dinsert, dget, ha, hb, ih]
      · by_cases hb : k' = a <;> simp [dinsert, dget, ha, hb, hk, ih]

theorem mem_keys_dinsert (d : List (Int × Meter)) (k : Int) (v : Meter) (k' : Int) :
    k' ∈ (dinsert d k v).map Prod.fst ↔ k' = k ∨ k' ∈ d.map Prod.fst := by
  rw [← dget_isSome_iff_mem_keys, ← dget_isSome_iff_mem_keys, dget_dinsert]
  by_cases hk : k' = k <;> simp [hk]

theorem keys_dinsert_nodup (d : List (Int × Meter)) (k : Int) (v : Meter)
    (hd : (d.map Prod.fst).Nodup) : ((dinsert d k v).map Prod.fst).Nodup := by
  induction d with
  | nil => simp [dinsert]
  | cons p rest ih =>
    obtain ⟨a, b⟩ := p
    simp only [List.map_cons, List.nodup_cons] at hd
    by_cases ha : a = k
    · subst ha
      simpa [dinsert, List.nodup_cons] using hd
    · have hrest := ih hd.2
      have hmem : a ∉ (dinsert rest k v).map Prod.fst := by
        rw [mem_keys_dinsert]
        rintro (rfl | hin)
        · exact ha rfl
        · exact hd.1 hin
      simp [dinsert, ha, List.nodup_cons, hmem, hrest]

/-! ## Claim theorems -/

/-- C1: the consumption merge cannot merge at all: `ConsumptionValueDto` has
no `starttime` (or `value`) attribute, so `MeterDataSet.update_from_api_result`
raises `AttributeError` on any reading with a non-empty `Values` list — here a
single reading with one sample — instead of upserting the sample.  The second
conjunct records the root cause: the DTO's attribute dictionary has no
`starttime` entry. -/
theorem C1_merge_raises :
    MeterDataSet.update_from_api_result ⟨fun _ => none⟩
      [{ Meter := meterA, Values := [ConsumptionValueDto.mk 0 3600 (some 5)] }]
      = .error .attributeError ∧
    dget (ConsumptionValueDto.mk 0 3600 (some 5)) "starttime" = none :=
  ⟨rfl, rfl⟩

/-- C2: with a non-empty token store whose refresh token expired at t = 10,
`_get_tokens` at t = 100 issues the `grant_type=refresh_token` request instead
of running the full B2C flow: `_is_token_valid("refresh_token")` matches
neither arm of the `match` statement ("access_token" / "refresh") and reports
any non-empty store as valid, while the dead "refresh" arm — the check the
claim describes — would report the expired token invalid. -/
theorem C2_expired_refresh_takes_refresh_path :
    getTokensAction tokensExpiredRefresh 100 = .ok .refreshRequest ∧
    is_token_valid tokensExpiredRefresh "refresh_token" 100 = .ok true ∧
    is_token_valid tokensExpiredRefresh "refresh" 100 = .ok false := by
  decide

/-- C4: the statistics derivation raises on every input instead of emitting
increment records: with a prior checkpoint, `pytz.utc.localize` of the
already-aware cutoff raises `ValueError`; with no prior statistic,
`last_stat["start"]` on `None` raises `TypeError`; and `_insert_statistics`
itself raises `TypeError` on any non-empty data because its loop unpacks the
dict's keys. -/
theorem C4_statistics_pipeline_raises :
    update_data (some ⟨0, 0⟩) (some [(3600, 5)]) = .error .valueError ∧
    update_data none (some [(3600, 5)]) = .error .typeError ∧
    insert_statistics [(3600, 5)] (some ⟨0, 0⟩) = .error .typeError := by
  decide

/-- C9: the incremental statistics derivation emits no running sums at all on
a non-empty time series — `for (time, value) in sorted(new_data)` unpacks the
dict's datetime keys and raises `TypeError` — so the claimed monotone,
idempotent output is never produced; only the empty series yields (empty)
output. -/
theorem C9_derivation_raises :
    insert_statistics [(100, 2), (200, 3)] (some ⟨50, 10⟩) = .error .typeError ∧
    insert_statistics [] (some ⟨50, 10⟩) = .ok [] := by
  decide

/-- C3 counterexample: in a B2C exchange in which every step up to
`/confirmed` succeeded but the response carries no `Location` header,
`_b2c_auth` raises `KeyError` (uncaught) rather than returning an empty
result. -/
theorem C3_counterexample_location_raises :
    b2c_auth b2cEnvNoLocation = .error .keyError ∧
    (Except.error PyExn.keyError : Except PyExn Tokens) ≠ .ok Tokens.empty := by
  decide

/-- C5 counterexample: a non-empty store checked exactly at its
`expires_on = 100` timestamp: the claim says validity must be false at
`now = expires_on`, but `_is_token_valid` returns true (it only invalidates
when `expires_on < now`). -/
theorem C5_counterexample_boundary :
    is_token_valid tokensAtBoundary "access_token" 100 = .ok true := by
  decide

/-- C5 as amended: for a non-empty token store whose `expires_on` is present,
the access-token validity check returns true exactly when `now <= expires_on`
(so false exactly when `now > expires_on`, not at the boundary); for an empty
store it returns false. -/
theorem C5_access_token_validity (t : Tokens) (now ts : Int)
    (hne : t.isEmpty = false) (hts : t.expires_on = some ts) :
    is_token_valid t "access_token" now = .ok (decide (now ≤ ts)) ∧
    ∀ u : Tokens, u.isEmpty = true → is_token_valid u "access_token" now = .ok false := by
  constructor
  · simp only [is_token_valid, hne, hts]
    by_cases h : ts < now
    · have hle : ¬ now ≤ ts := by omega
      simp [h, hle]
    · have hle : now ≤ ts := by omega
      simp [h, hle]
  · intro u hu
    simp [is_token_valid, hu]

/-- C5 witness: the amended theorem evaluated at a store expiring at t = 100,
checked at t = 42, and at the empty store. -/
theorem C5_access_token_validity_witness :
    is_token_valid tokensAtBoundary "access_token" 42 = .ok true ∧
    is_token_valid Tokens.empty "access_token" 42 = .ok false :=
  ⟨(C5_access_token_validity tokensAtBoundary 42 100 rfl rfl).1,
   (C5_access_token_validity tokensAtBoundary 42 100 rfl rfl).2 Tokens.empty rfl⟩

/-- C6: when the merged payload carries an access token, the stored
`refresh_token_expires_on` is unchanged if the payload's refresh token equals
the stored one (the token endpoint's payload carries TTLs, never an
`refresh_token_expires_on` key of its own, hence the `none` hypothesis), and
is recomputed as `now + refresh_token_expires_in` if the refresh token
rotated. -/
theorem C6_refresh_rotation (stored payload : Tokens) (now : Int)
    (hacc : optStrTruthy payload.access_token = true) :
    (payload.refresh_token = stored.refresh_token →
      payload.refresh_token_expires_on = none →
      ∃ merged, getTokensMerge stored payload now = .ok merged ∧
        merged.refresh_token_expires_on = stored.refresh_token_expires_on) ∧
    (∀ ttl : Int, payload.refresh_token ≠ stored.refresh_token →
      payload.refresh_token_expires_in = some ttl →
      ∃ merged, getTokensMerge stored payload now = .ok merged ∧
        merged.refresh_token_expires_on = some (now + ttl)) := by
  constructor
  · intro heq hnone
    refine ⟨stored.update payload, ?_, ?_⟩
    · simp [getTokensMerge, hacc, heq]
    · simp [Tokens.update, orD, hnone]
  · intro ttl hne hsome
    refine ⟨stored.update { payload with refresh_token_expires_on := some (now + ttl) },
      ?_, ?_⟩
    · simp [getTokensMerge, hacc, hsome, bne_iff_ne, hne]
    · simp [Tokens.update, orD]

/-- C6 witness: the theorem evaluated at a stored set with refresh token "R1"
expiring at t = 500, merged at t = 1000 with a payload keeping "R1" (expiry
kept) and with a payload rotating to "R2" with TTL 200 (expiry 1200). -/
theorem C6_refresh_rotation_witness :
    (∃ merged, getTokensMerge storedTokens payloadSameRefresh 1000 = .ok merged ∧
      merged.refresh_token_expires_on = storedTokens.refresh_token_expires_on) ∧
    (∃ merged, getTokensMerge storedTokens payloadNewRefresh 1000 = .ok merged ∧
      merged.refresh_token_expires_on = some (1000 + 200)) :=
  ⟨(C6_refresh_rotation storedTokens payloadSameRefresh 1000 rfl).1 rfl rfl,
   (C6_refresh_rotation storedTokens payloadNewRefresh 1000 rfl).2 200 (by decide) rfl⟩

/-- C10: `Result.map` leaves an error result unchanged (same wrapped
exception; with an endofunction, literally a fixed point), wraps `f(value)`
on a success, wrapping the raised exception instead when `f` raises, and —
being a total function — never raises itself. -/
theorem C10_result_map (T U : Type) (r : Result T) (f : T → Except String U) :
    (∀ e, r.value = .error e → (r.map f).value = .error e) ∧
    (∀ v, r.value = .ok v → r.map f = ⟨f v⟩) ∧
    (∀ g : T → Except String T, r.is_error = true → r.map g = r) := by
  obtain ⟨val⟩ := r
  refine ⟨?_, ?_, ?_⟩
  · intro e he
    cases he
    rfl
  · intro v hv
    cases hv
    show Result.map ⟨.ok v⟩ f = ⟨f v⟩
    cases h : f v <;> simp [Result.map, h]
  · intro g herr
    cases val with
    | error e => rfl
    | ok v => simp [Result.is_error] at herr

/-- C10 witness: the theorem evaluated on a concrete error result and a
concrete success, with a non-raising function. -/
theorem C10_result_map_witness :
    (Result.map (⟨.error "boom"⟩ : Result Nat) (fun n => Except.ok (n + 1))).value
      = Except.error "boom" ∧
    Result.map (⟨.ok 3⟩ : Result Nat) (fun n => Except.ok (n + 1))
      = (⟨.ok 4⟩ : Result Nat) ∧
    Result.map (⟨.error "x"⟩ : Result Nat) (fun n => Except.ok n)
      = (⟨.error "x"⟩ : Result Nat) :=
  ⟨(C10_result_map Nat Nat ⟨.error "boom"⟩ (fun n => Except.ok (n + 1))).1 "boom" rfl,
   (C10_result_map Nat Nat ⟨.ok 3⟩ (fun n => Except.ok (n + 1))).2.1 3 rfl,
   (C10_result_map Nat Nat ⟨.error "x"⟩ (fun n => Except.ok n)).2.2 _ rfl⟩

/-- C3 as amended: only two of the step failures return an empty result — a
body with no SETTINGS block, and a redirect carrying no `code` parameter.
The other failures escape the authenticator: an absent CSRF cookie raises
`AttributeError` (the `except KeyError` handler does not match it), a
SETTINGS block without a transaction id raises `IndexError`, a non-200
`/SelfAsserted` status or a `Location` not beginning with the configured
redirect URI raises `AssertionError`, and a missing `Location` header raises
`KeyError`. -/
theorem C3_step_failure_behaviour (env : B2CEnv) :
    (env.csrf_cookie = none → b2c_auth env = .error .attributeError) ∧
    (env.csrf_cookie ≠ none → env.has_settings = false →
      b2c_auth env = .ok Tokens.empty) ∧
    (env.csrf_cookie ≠ none → env.has_settings = true → env.trans_id = none →
      b2c_auth env = .error .indexError) ∧
    (env.csrf_cookie ≠ none → env.has_settings = true → env.trans_id ≠ none →
      env.selfasserted_status ≠ 200 → b2c_auth env = .error .assertionError) ∧
    (env.csrf_cookie ≠ none → env.has_settings = true → env.trans_id ≠ none →
      env.selfasserted_status = 200 → env.location = none →
      b2c_auth env = .error .keyError) ∧
    (∀ redirect, env.csrf_cookie ≠ none → env.has_settings = true →
      env.trans_id ≠ none → env.selfasserted_status = 200 →
      env.location = some redirect → strStartsWith redirect REDIRECT = false →
      b2c_auth env = .error .assertionError) ∧
    (∀ redirect, env.csrf_cookie ≠ none → env.has_settings = true →
      env.trans_id ≠ none → env.selfasserted_status = 200 →
      env.location = some redirect → strStartsWith redirect REDIRECT = true →
      parse_qs_first (urlQuery redirect) "code" = none →
      b2c_auth env = .ok Tokens.empty) := by
  refine ⟨?_, ?_, ?_, ?_, ?_, ?_, ?_⟩
  · intro h
    simp [b2c_auth, h]
  · intro hc hs
    obtain ⟨c, hc'⟩ := Option.ne_none_iff_exists'.mp hc
    simp [b2c_auth, hc', hs]
  · intro hc hs ht
    obtain ⟨c, hc'⟩ := Option.ne_none_iff_exists'.mp hc
    simp [b2c_auth, hc', hs, ht]
  · intro hc hs ht hst
    obtain ⟨c, hc'⟩ := Option.ne_none_iff_exists'.mp hc
    obtain ⟨t, ht'⟩ := Option.ne_none_iff_exists'.mp ht
    simp [b2c_auth, hc', hs, ht', hst]
  · intro hc hs ht hst hl
    obtain ⟨c, hc'⟩ := Option.ne_none_iff_exists'.mp hc
    obtain ⟨t, ht'⟩ := Option.ne_none_iff_exists'.mp ht
    simp [b2c_auth, hc', hs, ht', hst, hl]
  · intro redirect hc hs ht hst hl hpre
    obtain ⟨c, hc'⟩ := Option.ne_none_iff_exists'.mp hc
    obtain ⟨t, ht'⟩ := Option.ne_none_iff_exists'.mp ht
    simp [b2c_auth, hc', hs, ht', hst, hl, hpre]
  · intro redirect hc hs ht hst hl hpre hcode
    obtain ⟨c, hc'⟩ := Option.ne_none_iff_exists'.mp hc
    obtain ⟨t, ht'⟩ := Option.ne_none_iff_exists'.mp ht
    simp [b2c_auth, hc', hs, ht', hst, hl, hpre, hcode]

/-- C3 witness: the amended theorem evaluated at a missing-CSRF-cookie
exchange (AttributeError) and at a redirect with no `code` parameter
(empty result). -/
theorem C3_step_failure_behaviour_witness :
    b2c_auth b2cEnvNoCsrf = .error .attributeError ∧
    b2c_auth b2cEnvNoCode = .ok Tokens.empty :=
  ⟨(C3_step_failure_behaviour b2cEnvNoCsrf).1 rfl,
   (C3_step_failure_behaviour b2cEnvNoCode).2.2.2.2.2.2
     "https://online.brunata.com/auth-response?state=xyz"
     (by decide) rfl (by decide) rfl rfl (by decide) (by decide)⟩

/-- Invariant of `configure_metadata`'s loop, for any starting dict: the
run succeeds when every included row resolves, and the final dict holds a key
iff the starting dict did or some included row carries it; no-duplicate keys
are preserved. -/
theorem configure_metadata_invariant (cfg : MappersConfiguration) :
    ∀ (meters : List MeterConfiguration) (state : List (Int × Meter)),
    (∀ mc ∈ meters, mc.meter.superAllocationUnit ≠ none →
      ∃ m, resolve_row cfg mc.meter = .ok m) →
    ∃ catalog, configure_metadata cfg meters state = .ok catalog ∧
      (∀ mid : Int, (dget catalog mid).isSome ↔ ((dget state mid).isSome ∨
        ∃ mc ∈ meters, mc.meter.superAllocationUnit ≠ none ∧ mc.meter.meterId = mid)) ∧
      ((state.map Prod.fst).Nodup → (catalog.map Prod.fst).Nodup) := by
  intro meters
  induction meters with
  | nil =>
    intro state _
    exact ⟨state, rfl, by simp, id⟩
  | cons mc rest ih =>
    intro state hres
    have hrest : ∀ mc' ∈ rest, mc'.meter.superAllocationUnit ≠ none →
        ∃ m, resolve_row cfg mc'.meter = .ok m :=
      fun mc' h hs => hres mc' (List.mem_cons_of_mem _ h) hs
    cases hsau : mc.meter.superAllocationUnit with
    | none =>
      obtain ⟨catalog, hcat, hiff, hnodup⟩ := ih state hrest
      refine ⟨catalog, ?_, ?_, hnodup⟩
      · simpa [configure_metadata, hsau] using hcat
      · intro mid
        rw [hiff mid]
        constructor
        · rintro (h | ⟨mc', hmem, hsau', hid⟩)
          · exact Or.inl h
          · exact Or.inr ⟨mc', List.mem_cons_of_mem _ hmem, hsau', hid⟩
        · rintro (h | ⟨mc', hmem, hsau', hid⟩)
          · exact Or.inl h
          · rcases List.mem_cons.mp hmem with rfl | hmem'
            · exact absurd hsau hsau'
            · exact Or.inr ⟨mc', hmem', hsau', hid⟩
    | some s =>
      obtain ⟨m, hm⟩ := hres mc (List.mem_cons_self _ _) (by simp [hsau])
      obtain ⟨catalog, hcat, hiff, hnodup⟩ := ih (dinsert state mc.meter.meterId m) hrest
      refine ⟨catalog, ?_, ?_, ?_⟩
      · simpa [configure_metadata, hsau, hm] using hcat
      · intro mid
        rw [hiff mid, dget_dinsert]
        constructor
        · rintro (h | ⟨mc', hmem, hsau', hid⟩)
          · by_cases hmid : mid = mc.meter.meterId
            · exact Or.inr ⟨mc, List.mem_cons_self _ _, by simp [hsau], hmid.symm⟩
            · rw [if_neg hmid] at h
              exact Or.inl h
          · exact Or.inr ⟨mc', List.mem_cons_of_mem _ hmem, hsau', hid⟩
        · rintro (h | ⟨mc', hmem, hsau', hid⟩)
          · left
            by_cases hmid : mid = mc.meter.meterId <;> simp [hmid, h]
          · rcases List.mem_cons.mp hmem with rfl | hmem'
            · left
              rw [if_pos hid.symm]
              rfl
            · exact Or.inr ⟨mc', hmem', hsau', hid⟩
      · intro hnod
        exact hnodup (keys_dinsert_nodup _ _ _ hnod)

/-- C7: starting from a fresh reader, metadata resolution succeeds whenever
every row with a present `superAllocationUnit` resolves through the mapping
tables, and the resulting catalog is keyed by meter id without duplicates and
holds an id iff some row with a present `superAllocationUnit` carries it — so
null-`superAllocationUnit` rows (whatever their `meterNo`) are skipped and
every other row yields exactly one entry under its meter id. -/
theorem C7_metadata_resolution (cfg : MappersConfiguration)
    (meters : List MeterConfiguration)
    (hres : ∀ mc ∈ meters, mc.meter.superAllocationUnit ≠ none →
      ∃ m, resolve_row cfg mc.meter = .ok m) :
    ∃ catalog, configure_metadata cfg meters [] = .ok catalog ∧
      (catalog.map Prod.fst).Nodup ∧
      ∀ mid : Int, (dget catalog mid).isSome ↔
        ∃ mc ∈ meters, mc.meter.superAllocationUnit ≠ none ∧ mc.meter.meterId = mid := by
  obtain ⟨catalog, hcat, hiff, hnodup⟩ := configure_metadata_invariant cfg meters [] hres
  refine ⟨catalog, hcat, hnodup (by simp), fun mid => ?_⟩
  rw [hiff mid]
  simp [dget]

/-- C7 witness: Scenario D — a real row (meter id 10) and a shadow row with
the same `meterNo` but a null `superAllocationUnit` (meter id 11): the
catalog has no duplicate keys and holds exactly the ids of
non-null-`superAllocationUnit` rows. -/
theorem C7_metadata_resolution_witness :
    ∃ catalog, configure_metadata mappersD [rowRealD, rowShadowD] [] = .ok catalog ∧
      (catalog.map Prod.fst).Nodup ∧
      ∀ mid : Int, (dget catalog mid).isSome ↔
        ∃ mc ∈ [rowRealD, rowShadowD],
          mc.meter.superAllocationUnit ≠ none ∧ mc.meter.meterId = mid :=
  C7_metadata_resolution mappersD [rowRealD, rowShadowD] (by
    intro mc hmc hs
    rcases List.mem_cons.mp hmc with rfl | hmc'
    · exact ⟨_, rfl⟩
    · rcases List.mem_cons.mp hmc' with rfl | h
      · exact absurd rfl hs
      · exact absurd h (List.not_mem_nil _))

/-- The `enrich_consumption_data` comprehension on a catalog covering every
line: one reading per line, pairing the line's catalog meter with the line's
consumption values. -/
theorem enrich_lines_ok (catalog : List (Int × Meter)) (lines : List ConsumptionLine)
    (h : ∀ line ∈ lines, (dget catalog line.meter.meterId).isSome) :
    ∃ rs, enrich_lines catalog lines = .ok rs ∧
      List.Forall₂ (fun (line : ConsumptionLine) (r : ConsumptionReading) =>
        dget catalog line.meter.meterId = some r.Meter ∧
        r.Values = line.consumptionValues) lines rs := by
  induction lines with
  | nil => exact ⟨[], rfl, List.Forall₂.nil⟩
  | cons line rest ih =>
    obtain ⟨m, hm⟩ :=
      Option.isSome_iff_exists.mp (h line (List.mem_cons_self _ _))
    obtain ⟨rs, hrs, hfa⟩ := ih (fun l hl => h l (List.mem_cons_of_mem _ hl))
    refine ⟨⟨m, line.consumptionValues⟩ :: rs, ?_, List.Forall₂.cons ⟨hm, rfl⟩ hfa⟩
    simp [enrich_lines, hm, hrs]

/-- The `enrich_consumption_data` comprehension when some line's meter id is
absent from the catalog: a `KeyError` carrying an absent meter id. -/
theorem enrich_lines_error (catalog : List (Int × Meter)) (lines : List ConsumptionLine)
    (h : ∃ line ∈ lines, dget catalog line.meter.meterId = none) :
    ∃ mid, enrich_lines catalog lines = .error mid ∧ dget catalog mid = none := by
  induction lines with
  | nil =>
    obtain ⟨l, hl, _⟩ := h
    exact absurd hl (List.not_mem_nil _)
  | cons line rest ih =>
    cases hl : dget catalog line.meter.meterId with
    | none => exact ⟨line.meter.meterId, by simp [enrich_lines, hl], hl⟩
    | some m =>
      have h' : ∃ l ∈ rest, dget catalog l.meter.meterId = none := by
        obtain ⟨l, hmem, hnone⟩ := h
        rcases List.mem_cons.mp hmem with rfl | hmem'
        · simp [hl] at hnone
        · exact ⟨l, hmem', hnone⟩
      obtain ⟨mid, hmid, hnone⟩ := ih h'
      exact ⟨mid, by simp [enrich_lines, hl, hmid], hnone⟩

/-- C8: when every consumption line's meter id is in the catalog,
`enrich_consumption_data` returns exactly one reading per line pairing the
line's catalog meter with its consumption values; when some line's meter id
is absent, it fails with a `KeyError` carrying an absent meter id — the error
propagates, it is not swallowed. -/
theorem C8_enrich_consumption (catalog : List (Int × Meter)) (cd : ConsumptionResult) :
    ((∀ line ∈ cd.consumptionLines, (dget catalog line.meter.meterId).isSome) →
      ∃ rs, enrich_consumption_data catalog cd = .ok rs ∧
        List.Forall₂ (fun (line : ConsumptionLine) (r : ConsumptionReading) =>
          dget catalog line.meter.meterId = some r.Meter ∧
          r.Values = line.consumptionValues) cd.consumptionLines rs) ∧
    ((∃ line ∈ cd.consumptionLines, dget catalog line.meter.meterId = none) →
      ∃ mid, enrich_consumption_data catalog cd = .error mid ∧
        dget catalog mid = none) :=
  ⟨fun h => enrich_lines_ok catalog cd.consumptionLines h,
   fun h => enrich_lines_error catalog cd.consumptionLines h⟩

/-- C8 witness: the theorem evaluated on a one-entry catalog (meter id 10),
once with a fetch whose line is known and once with a stale fetch including
meter id 99. -/
theorem C8_enrich_consumption_witness :
    (∃ rs, enrich_consumption_data catalogD cdKnown = .ok rs ∧
      List.Forall₂ (fun (line : ConsumptionLine) (r : ConsumptionReading) =>
        dget catalogD line.meter.meterId = some r.Meter ∧
        r.Values = line.consumptionValues) cdKnown.consumptionLines rs) ∧
    (∃ mid, enrich_consumption_data catalogD cdStale = .error mid ∧
      dget catalogD mid = none) :=
  ⟨(C8_enrich_consumption catalogD cdKnown).1 (by decide),
   (C8_enrich_consumption catalogD cdStale).2 (by decide)⟩

end Brunata
